import Mathlib

/-!
Verification of the task-manager backend (domain entities, auth service,
task-list service, task service) against its specification.

The Python source is shallowly embedded: Python ints become Int, datetimes
become Int timestamps, floats become rationals, Optional values become
Option, raised domain exceptions become an explicit error type threaded
through Except, and the persistence collaborators (the repository
interfaces of src/domain/repositories.py) are modelled as pure functions
over an explicit Store value holding the users, task_lists and tasks
tables.  Python truthiness is modelled exactly where the source relies on
it: an Optional[int] is truthy iff it is a non-zero some, a list is truthy
iff it is non-empty, a string is truthy iff it is non-empty.
-/

namespace TaskManager

/-- Task status enumeration (src/domain/entities.py, TaskStatus). -/
inductive TaskStatus where
  | pending
  | in_progress
  | completed
  | cancelled
  deriving DecidableEq, Repr

/-- Task priority enumeration (src/domain/entities.py, TaskPriority). -/
inductive TaskPriority where
  | low
  | medium
  | high
  | critical
  deriving DecidableEq, Repr

/-- User domain entity (src/domain/entities.py, User).  The id is Optional
in the source (None until persisted); stored rows always carry an id, so
the model keeps a plain Int id and timestamps as Option Int. -/
structure User where
  id : Int
  email : String
  username : String
  full_name : Option String
  hashed_password : String
  is_active : Bool := true
  created_at : Option Int := none
  updated_at : Option Int := none
  deriving DecidableEq, Repr

/-- Task domain entity (src/domain/entities.py, Task).  The ORM
back-pointer relationship fields (task_list, assignee) are dropped; they
are never read by the embedded logic. -/
structure Task where
  id : Int
  title : String
  description : Option String := none
  status : TaskStatus := .pending
  priority : TaskPriority := .medium
  task_list_id : Int
  assigned_to : Option Int := none
  created_at : Option Int := none
  updated_at : Option Int := none
  due_date : Option Int := none
  deriving DecidableEq, Repr

/-- TaskList domain entity (src/domain/entities.py, TaskList) with its
tasks relationship, read by calculate_completion_percentage. -/
structure TaskList where
  id : Int
  name : String
  description : Option String := none
  owner_id : Int
  created_at : Option Int := none
  updated_at : Option Int := none
  tasks : List Task := []
  deriving DecidableEq, Repr

/-- Python truthiness of an Optional[int]: None and 0 are falsy. -/
def intOptTruthy : Option Int → Bool
  | none => false
  | some n => n != 0

/-- Overdue check (src/domain/entities.py, Task.is_overdue).  The source
reads datetime.utcnow(); the model passes the current instant explicitly.
A datetime object is always truthy in Python, so the "not self.due_date"
guard is exactly a None test. -/
def Task.is_overdue (t : Task) (now : Int) : Bool :=
  match t.due_date with
  | none => false
  | some d => decide (now > d) && t.status != .completed

/-- Completion percentage (src/domain/entities.py,
TaskList.calculate_completion_percentage).  Python float arithmetic is
modelled over the rationals; the source computes
(completed_tasks / len(self.tasks)) * 100.0, with 0.0 for an empty list
("if not self.tasks" is list truthiness, i.e. emptiness). -/
def TaskList.calculate_completion_percentage (tl : TaskList) : ℚ :=
  if tl.tasks.isEmpty then 0
  else (((tl.tasks.filter (fun t => t.status == .completed)).length : ℚ)
          / (tl.tasks.length : ℚ)) * 100

/-- Domain errors (src/domain/exceptions.py), restricted to the
constructors raised by the embedded services.  attributeNone models the
Python AttributeError raised when the task service reads owner_id off a
None task list (the source performs no None check there). -/
inductive DomainError where
  | taskListNotFound (task_list_id : Int)
  | taskNotFound (task_id : Int)
  | userNotFound (user_id : Int)
  | emailExists (email : String)
  | usernameExists (username : String)
  | authentication (message : String)
  | authorization (message : String)
  | taskAssignment (message : String)
  | attributeNone
  deriving DecidableEq, Repr

/-- DTO for creating a user (src/application/dto.py, UserCreateDTO). -/
structure UserCreateDTO where
  email : String
  username : String
  full_name : Option String := none
  password : String
  deriving DecidableEq, Repr

/-- DTO for user response (src/application/dto.py, UserResponseDTO). -/
structure UserResponseDTO where
  id : Int
  email : String
  username : String
  full_name : Option String
  is_active : Bool
  created_at : Option Int
  updated_at : Option Int
  deriving DecidableEq, Repr

/-- DTO for user login (src/application/dto.py, LoginDTO).  The email
field carries an email or a username. -/
structure LoginDTO where
  email : String
  password : String
  deriving DecidableEq, Repr

/-- DTO for token response (src/application/dto.py, TokenResponseDTO). -/
structure TokenResponseDTO where
  access_token : String
  token_type : String := "bearer"
  expires_in : Int
  deriving DecidableEq, Repr

/-- DTO for updating a task list (src/application/dto.py,
TaskListUpdateDTO). -/
structure TaskListUpdateDTO where
  name : Option String := none
  description : Option String := none
  deriving DecidableEq, Repr

/-- DTO for task list response (src/application/dto.py,
TaskListResponseDTO); the float completion percentage is a rational. -/
structure TaskListResponseDTO where
  id : Int
  name : String
  description : Option String
  owner_id : Int
  created_at : Option Int
  updated_at : Option Int
  completion_percentage : ℚ
  task_count : Int := 0
  deriving DecidableEq, Repr

/-- DTO for creating a task (src/application/dto.py, TaskCreateDTO).
The task_list_id field of the DTO is unused by the embedded service
(create_task receives the list id as a separate argument, matching the
service signature). -/
structure TaskCreateDTO where
  title : String
  description : Option String := none
  task_list_id : Int
  priority : TaskPriority := .medium
  assigned_to : Option Int := none
  due_date : Option Int := none
  deriving DecidableEq, Repr

/-- DTO for updating a task (src/application/dto.py, TaskUpdateDTO). -/
structure TaskUpdateDTO where
  title : Option String := none
  description : Option String := none
  priority : Option TaskPriority := none
  assigned_to : Option Int := none
  due_date : Option Int := none
  deriving DecidableEq, Repr

/-- DTO for task response (src/application/dto.py, TaskResponseDTO). -/
structure TaskResponseDTO where
  id : Int
  title : String
  description : Option String
  status : TaskStatus
  priority : TaskPriority
  task_list_id : Int
  assigned_to : Option Int
  created_at : Option Int
  updated_at : Option Int
  due_date : Option Int
  is_overdue : Bool := false
  assignee : Option UserResponseDTO := none
  deriving DecidableEq, Repr

/-- DTO for updating task status (src/application/dto.py,
TaskStatusUpdateDTO). -/
structure TaskStatusUpdateDTO where
  status : TaskStatus
  deriving DecidableEq, Repr

/-- DTO for task list with tasks (src/application/dto.py,
TaskListWithTasksDTO). -/
structure TaskListWithTasksDTO where
  id : Int
  name : String
  description : Option String
  owner_id : Int
  created_at : Option Int
  updated_at : Option Int
  completion_percentage : ℚ
  tasks : List TaskResponseDTO := []
  deriving DecidableEq, Repr

/-- DTO for pagination parameters (src/application/dto.py,
PaginationDTO); skip defaults to 0 and limit to 100. -/
structure PaginationDTO where
  skip : Nat := 0
  limit : Nat := 100
  deriving DecidableEq, Repr

/-- DTO for task filtering (src/application/dto.py, TaskFilterDTO). -/
structure TaskFilterDTO where
  status : Option TaskStatus := none
  priority : Option TaskPriority := none
  assigned_to : Option Int := none
  overdue_only : Bool := false
  deriving DecidableEq, Repr

/-- DTO for email notifications (src/application/dto.py,
EmailNotificationDTO). -/
structure EmailNotificationDTO where
  to_email : String
  subject : String
  body : String
  task_id : Option Int := none
  user_id : Option Int := none
  deriving DecidableEq, Repr

/-- Persistence state: the users, task_lists and tasks tables behind the
repository interfaces (src/domain/repositories.py).  Rows are kept in
insertion order. -/
structure Store where
  users : List User := []
  task_lists : List TaskList := []
  tasks : List Task := []
  deriving DecidableEq, Repr

/-- UserRepository.get_by_id: retrieve a user row by primary key. -/
def Store.user_by_id (s : Store) (user_id : Int) : Option User :=
  s.users.find? (fun u => u.id == user_id)

/-- UserRepository.get_by_email: retrieve a user row by email. -/
def Store.user_by_email (s : Store) (email : String) : Option User :=
  s.users.find? (fun u => u.email == email)

/-- UserRepository.get_by_username: retrieve a user row by username. -/
def Store.user_by_username (s : Store) (username : String) : Option User :=
  s.users.find? (fun u => u.username == username)

/-- TaskListRepository.get_by_id: retrieve a task list row by primary
key. -/
def Store.task_list_by_id (s : Store) (task_list_id : Int) : Option TaskList :=
  s.task_lists.find? (fun l => l.id == task_list_id)

/-- TaskRepository.get_by_id: retrieve a task row by primary key. -/
def Store.task_by_id (s : Store) (task_id : Int) : Option Task :=
  s.tasks.find? (fun t => t.id == task_id)

/-- TaskRepository.get_by_task_list called without pagination or filter
arguments, as TaskListService.get_task_list does.  Modelled from the spec:
the concrete repository (src/infrastructure/repositories.py, absent from
the sources) is specified in section 4.4 as "fetches all tasks of the
list". -/
def Store.tasks_of_list (s : Store) (task_list_id : Int) : List Task :=
  s.tasks.filter (fun t => t.task_list_id == task_list_id)

/-- TaskRepository.get_by_task_list with pagination and status/priority
filters, as TaskService.list_tasks calls it.  Modelled from the spec:
the concrete repository (src/infrastructure/repositories.py, absent from
the sources) is specified in section 4.5 as "Repository-level filtering
applies status/priority" before the page is taken, so the model filters
the list rows by status and priority and then applies skip/limit. -/
def Store.tasks_of_list_paged (s : Store) (task_list_id : Int)
    (skip limit : Nat) (status : Option TaskStatus)
    (priority : Option TaskPriority) : List Task :=
  let rows := s.tasks.filter (fun t => t.task_list_id == task_list_id)
  let rows := match status with
    | none => rows
    | some st => rows.filter (fun t => t.status == st)
  let rows := match priority with
    | none => rows
    | some p => rows.filter (fun t => t.priority == p)
  (rows.drop skip).take limit

/-- Next primary key for a user insert. -/
def Store.fresh_user_id (s : Store) : Int :=
  1 + s.users.foldl (fun m u => max m u.id) 0

/-- UserRepository.create: persist a new user row, assigning its id. -/
def Store.insert_user (s : Store) (u : User) : User × Store :=
  let u := { u with id := s.fresh_user_id }
  (u, { s with users := s.users ++ [u] })

/-- Next primary key for a task insert. -/
def Store.fresh_task_id (s : Store) : Int :=
  1 + s.tasks.foldl (fun m t => max m t.id) 0

/-- TaskRepository.create: persist a new task row, assigning its id. -/
def Store.insert_task (s : Store) (t : Task) : Task × Store :=
  let t := { t with id := s.fresh_task_id }
  (t, { s with tasks := s.tasks ++ [t] })

/-- TaskRepository.update: overwrite the task row with the same id. -/
def Store.replace_task (s : Store) (t : Task) : Store :=
  { s with tasks := s.tasks.map (fun x => if x.id == t.id then t else x) }

/-- TaskListRepository.update: overwrite the task list row with the same
id. -/
def Store.replace_task_list (s : Store) (l : TaskList) : Store :=
  { s with task_lists := s.task_lists.map (fun x => if x.id == l.id then l else x) }

/-- TaskListRepository.delete: remove the task list row, reporting
whether anything was removed; child tasks are removed as well (cascade is
a persistence-layer responsibility per the spec, section 3). -/
def Store.delete_task_list_row (s : Store) (task_list_id : Int) : Bool × Store :=
  (s.task_lists.any (fun l => l.id == task_list_id),
   { s with
       task_lists := s.task_lists.filter (fun l => l.id != task_list_id),
       tasks := s.tasks.filter (fun t => t.task_list_id != task_list_id) })

/-- TaskRepository.delete: remove the task row, reporting whether
anything was removed. -/
def Store.delete_task_row (s : Store) (task_id : Int) : Bool × Store :=
  (s.tasks.any (fun t => t.id == task_id),
   { s with tasks := s.tasks.filter (fun t => t.id != task_id) })

/-- View of a user excluding the password hash, as built inline by the
auth service (src/application/auth_service.py and the identical copy in
src/application/services.py). -/
def userToResponse (u : User) : UserResponseDTO :=
  { id := u.id, email := u.email, username := u.username,
    full_name := u.full_name, is_active := u.is_active,
    created_at := u.created_at, updated_at := u.updated_at }

/-- View of a task as built inline by the task services, including the
derived is_overdue flag (TaskResponseDTO construction sites in
src/application/services.py). -/
def taskToResponse (now : Int) (t : Task) : TaskResponseDTO :=
  { id := t.id, title := t.title, description := t.description,
    status := t.status, priority := t.priority,
    task_list_id := t.task_list_id, assigned_to := t.assigned_to,
    created_at := t.created_at, updated_at := t.updated_at,
    due_date := t.due_date, is_overdue := t.is_overdue now }

namespace AuthService

/-- User registration (AuthService.register_user, identical in
src/application/auth_service.py lines 54-87 and
src/application/services.py lines 79-112).  Password hashing is the
external credential codec (passlib), passed in as the function hash. -/
def register_user (s : Store) (hash : String → String) (now : Int)
    (user_data : UserCreateDTO) :
    Except DomainError UserResponseDTO × Store :=
  match s.user_by_email user_data.email with
  | some _ => (.error (.emailExists user_data.email), s)
  | none =>
    match s.user_by_username user_data.username with
    | some _ => (.error (.usernameExists user_data.username), s)
    | none =>
      let user : User :=
        { id := 0, email := user_data.email, username := user_data.username,
          full_name := user_data.full_name,
          hashed_password := hash user_data.password,
          created_at := some now }
      let (created_user, s) := s.insert_user user
      (.ok (userToResponse created_user), s)

/-- Identifier resolution at the start of AuthService.authenticate_user
(src/application/auth_service.py lines 91-94): look the user up by email
first and only on a miss by username. -/
def resolve_user (s : Store) (identifier : String) : Option User :=
  match s.user_by_email identifier with
  | none => s.user_by_username identifier
  | some u => some u

/-- User login (AuthService.authenticate_user, identical in
src/application/auth_service.py lines 89-110 and
src/application/services.py lines 114-135).  Password verification
(passlib) is the external function verify; token signing (jose jwt) is
the external function mkToken applied to the stringified user id claim;
expireMinutes is the configured access_token_expire_minutes. -/
def authenticate_user (s : Store) (verify : String → String → Bool)
    (mkToken : Int → String) (expireMinutes : Int) (login_data : LoginDTO) :
    Except DomainError TokenResponseDTO :=
  match resolve_user s login_data.email with
  | none => .error (.authentication "Invalid credentials")
  | some user =>
    if !(verify login_data.password user.hashed_password) then
      .error (.authentication "Invalid credentials")
    else if !user.is_active then
      .error (.authentication "User account is inactive")
    else
      .ok { access_token := mkToken user.id,
            expires_in := expireMinutes * 60 }

end AuthService

/-- Authorization message raised by task-list operations (the literal
"You don" followed by an apostrophe and "t have access to this task
list"). -/
def accessListMsg : String := "You don't have access to this task list"

/-- Authorization message raised by task operations. -/
def accessTaskMsg : String := "You don't have access to this task"

namespace NotificationService

/-- Email sending stub (NotificationService.send_email_notification,
src/application/services.py lines 607-621): returns false when email is
globally disabled, otherwise logs and returns true. -/
def send_email_notification (email_enabled : Bool)
    (_notification : EmailNotificationDTO) : Bool :=
  if !email_enabled then false else true

end NotificationService

namespace TaskListService

/-- TaskListService.get_task_list (src/application/services.py lines
191-237): absence check, then ownership check, then fetch of the tasks,
per-task overdue computation and the aggregate completion percentage. -/
def get_task_list (s : Store) (now : Int) (task_list_id user_id : Int) :
    Except DomainError TaskListWithTasksDTO :=
  match s.task_list_by_id task_list_id with
  | none => .error (.taskListNotFound task_list_id)
  | some task_list =>
    if task_list.owner_id ≠ user_id then
      .error (.authorization accessListMsg)
    else
      let tasks := s.tasks_of_list task_list_id
      let task_responses := tasks.map (taskToResponse now)
      let completion_percentage : ℚ :=
        if !tasks.isEmpty then
          (((tasks.filter (fun t => t.status == .completed)).length : ℚ)
             / (tasks.length : ℚ)) * 100
        else 0
      .ok { id := task_list.id, name := task_list.name,
            description := task_list.description,
            owner_id := task_list.owner_id,
            created_at := task_list.created_at,
            updated_at := task_list.updated_at,
            completion_percentage := completion_percentage,
            tasks := task_responses }

/-- TaskListService.update_task_list (src/application/services.py lines
239-269): absence check, ownership check, application of only the
supplied fields, updated_at set to now, repository update. -/
def update_task_list (s : Store) (now : Int) (task_list_id : Int)
    (update_data : TaskListUpdateDTO) (user_id : Int) :
    Except DomainError TaskListResponseDTO × Store :=
  match s.task_list_by_id task_list_id with
  | none => (.error (.taskListNotFound task_list_id), s)
  | some task_list =>
    if task_list.owner_id ≠ user_id then
      (.error (.authorization accessListMsg), s)
    else
      let task_list := match update_data.name with
        | none => task_list
        | some v => { task_list with name := v }
      let task_list := match update_data.description with
        | none => task_list
        | some v => { task_list with description := some v }
      let task_list := { task_list with updated_at := some now }
      let s := s.replace_task_list task_list
      ((.ok { id := task_list.id, name := task_list.name,
              description := task_list.description,
              owner_id := task_list.owner_id,
              created_at := task_list.created_at,
              updated_at := task_list.updated_at,
              completion_percentage :=
                task_list.calculate_completion_percentage }), s)

/-- TaskListService.delete_task_list (src/application/services.py lines
271-284): absence check, ownership check, repository delete whose boolean
result is returned. -/
def delete_task_list (s : Store) (task_list_id user_id : Int) :
    Except DomainError Bool × Store :=
  match s.task_list_by_id task_list_id with
  | none => (.error (.taskListNotFound task_list_id), s)
  | some task_list =>
    if task_list.owner_id ≠ user_id then
      (.error (.authorization accessListMsg), s)
    else
      let (result, s) := s.delete_task_list_row task_list_id
      (.ok result, s)

end TaskListService

namespace TaskService

/-- Assignee verification block shared verbatim by TaskService.create_task
(src/application/services.py lines 346-352) and TaskService.update_task
(lines 439-445).  The guard is Python truthiness of the Optional[int]
assigned_to, so the check is skipped for None and for 0; when it runs, a
missing user raises UserNotFoundError and an inactive one
TaskAssignmentError. -/
def verify_assignee (s : Store) (assigned_to : Option Int) :
    Option DomainError :=
  if intOptTruthy assigned_to then
    match assigned_to with
    | none => none
    | some a =>
      match s.user_by_id a with
      | none => some (.userNotFound a)
      | some assignee =>
        if !assignee.is_active then
          some (.taskAssignment "Cannot assign task to inactive user")
        else none
  else none

/-- TaskService._send_assignment_notification (src/application/services.py
lines 581-598).  The notification transport is the external collaborator
notify (in this repository, NotificationService.send_email_notification);
the source discards its result, returning None.  The model returns the
transport outcome so that theorems can quantify over it; every caller
ignores it, exactly as the source does.  Note the Python truthiness
guards: assigned_to equal to 0 returns early, and an empty description
string is replaced by "No description" (description or fallback). -/
def send_assignment_notification (s : Store)
    (notify : EmailNotificationDTO → Bool) (task : Task) : Bool :=
  if !intOptTruthy task.assigned_to then false
  else
    match task.assigned_to with
    | none => false
    | some a =>
      match s.user_by_id a with
      | none => false
      | some assignee =>
        notify
          { to_email := assignee.email,
            subject := "Task Assigned: " ++ task.title,
            body := "You have been assigned a new task: " ++ task.title
              ++ "\n\nDescription: "
              ++ (match task.description with
                  | some d => if d = "" then "No description" else d
                  | none => "No description"),
            task_id := some task.id,
            user_id := some assignee.id }

/-- TaskService.create_task (src/application/services.py lines 334-383):
list absence check, ownership check, truthiness-guarded assignee
verification, task construction with status PENDING, repository insert,
truthiness-guarded assignment notification whose result is discarded,
response with the derived is_overdue. -/
def create_task (s : Store) (notify : EmailNotificationDTO → Bool)
    (now : Int) (task_list_id : Int) (task_data : TaskCreateDTO)
    (user_id : Int) : Except DomainError TaskResponseDTO × Store :=
  match s.task_list_by_id task_list_id with
  | none => (.error (.taskListNotFound task_list_id), s)
  | some task_list =>
    if task_list.owner_id ≠ user_id then
      (.error (.authorization accessListMsg), s)
    else
      match verify_assignee s task_data.assigned_to with
      | some e => (.error e, s)
      | none =>
        let task : Task :=
          { id := 0, title := task_data.title,
            description := task_data.description,
            priority := task_data.priority,
            task_list_id := task_list_id,
            assigned_to := task_data.assigned_to,
            due_date := task_data.due_date,
            created_at := some now }
        let (created_task, s) := s.insert_task task
        let _sent :=
          if intOptTruthy created_task.assigned_to then
            send_assignment_notification s notify created_task
          else false
        (.ok (taskToResponse now created_task), s)

/-- TaskService.get_task (src/application/services.py lines 385-424):
task absence check, then authorization granting access to the owning
list's owner or the task's assignee, then the response with an embedded
assignee view when one is assigned and found.  The source reads owner_id
off the list fetched by id without a None check; an absent list is the
Python AttributeError, modelled as the attributeNone error. -/
def get_task (s : Store) (now : Int) (task_id user_id : Int) :
    Except DomainError TaskResponseDTO :=
  match s.task_by_id task_id with
  | none => .error (.taskNotFound task_id)
  | some task =>
    match s.task_list_by_id task.task_list_id with
    | none => .error .attributeNone
    | some task_list =>
      if task_list.owner_id ≠ user_id ∧ task.assigned_to ≠ some user_id then
        .error (.authorization accessTaskMsg)
      else
        let assignee : Option UserResponseDTO :=
          if intOptTruthy task.assigned_to then
            match task.assigned_to with
            | none => none
            | some a =>
              match s.user_by_id a with
              | none => none
              | some assignee_user => some (userToResponse assignee_user)
          else none
        .ok { taskToResponse now task with assignee := assignee }

/-- Field application block of TaskService.update_task
(src/application/services.py lines 447-460): each field is applied
under an "is not None" test (so an assigned_to of 0 is applied), then
updated_at is set to now. -/
def applyTaskUpdate (task : Task) (update_data : TaskUpdateDTO)
    (now : Int) : Task :=
  let task := match update_data.title with
    | none => task
    | some v => { task with title := v }
  let task := match update_data.description with
    | none => task
    | some v => { task with description := some v }
  let task := match update_data.priority with
    | none => task
    | some v => { task with priority := v }
  let task := match update_data.assigned_to with
    | none => task
    | some v => { task with assigned_to := some v }
  let task := match update_data.due_date with
    | none => task
    | some v => { task with due_date := some v }
  { task with updated_at := some now }

/-- TaskService.update_task (src/application/services.py lines 426-481):
task absence check, owner-only authorization, truthiness-guarded assignee
verification, application of only the supplied fields (an "is not None"
test, so assigned_to equal to 0 is applied), updated_at set to now,
repository update, then a notification when the assignee actually changed
to a truthy value, its result discarded. -/
def update_task (s : Store) (notify : EmailNotificationDTO → Bool)
    (now : Int) (task_id : Int) (update_data : TaskUpdateDTO)
    (user_id : Int) : Except DomainError TaskResponseDTO × Store :=
  match s.task_by_id task_id with
  | none => (.error (.taskNotFound task_id), s)
  | some task =>
    match s.task_list_by_id task.task_list_id with
    | none => (.error .attributeNone, s)
    | some task_list =>
      if task_list.owner_id ≠ user_id then
        (.error (.authorization accessTaskMsg), s)
      else
        match verify_assignee s update_data.assigned_to with
        | some e => (.error e, s)
        | none =>
          let old_assignee := task.assigned_to
          let task := applyTaskUpdate task update_data now
          let s := s.replace_task task
          let updated_task := task
          let _sent :=
            if old_assignee ≠ updated_task.assigned_to
                ∧ intOptTruthy updated_task.assigned_to then
              send_assignment_notification s notify updated_task
            else false
          (.ok (taskToResponse now updated_task), s)

/-- TaskService.update_task_status (src/application/services.py lines
483-511): task absence check, authorization for the owning list's owner
or the task's assignee, then the repository status update. -/
def update_task_status (s : Store) (now : Int) (task_id : Int)
    (status_data : TaskStatusUpdateDTO) (user_id : Int) :
    Except DomainError TaskResponseDTO × Store :=
  match s.task_by_id task_id with
  | none => (.error (.taskNotFound task_id), s)
  | some task =>
    match s.task_list_by_id task.task_list_id with
    | none => (.error .attributeNone, s)
    | some task_list =>
      if task_list.owner_id ≠ user_id ∧ task.assigned_to ≠ some user_id then
        (.error (.authorization accessTaskMsg), s)
      else
        let updated_task := { task with status := status_data.status }
        let s := s.replace_task updated_task
        (.ok (taskToResponse now updated_task), s)

/-- TaskService.delete_task (src/application/services.py lines 513-528):
task absence check, owner-only authorization, repository delete whose
boolean result is returned. -/
def delete_task (s : Store) (task_id user_id : Int) :
    Except DomainError Bool × Store :=
  match s.task_by_id task_id with
  | none => (.error (.taskNotFound task_id), s)
  | some task =>
    match s.task_list_by_id task.task_list_id with
    | none => (.error .attributeNone, s)
    | some task_list =>
      if task_list.owner_id ≠ user_id then
        (.error (.authorization accessTaskMsg), s)
      else
        let (result, s) := s.delete_task_row task_id
        (.ok result, s)

/-- TaskService.list_tasks (src/application/services.py lines 530-579):
list absence check, ownership check, repository page fetch filtered by
status and priority, then the in-memory overdue_only and assigned_to
post-filters over the already-fetched page (both guards are Python
truthiness, so an assigned_to filter of 0 is skipped). -/
def list_tasks (s : Store) (now : Int) (task_list_id : Int)
    (filters : TaskFilterDTO) (pagination : PaginationDTO)
    (user_id : Int) : Except DomainError (List TaskResponseDTO) :=
  match s.task_list_by_id task_list_id with
  | none => .error (.taskListNotFound task_list_id)
  | some task_list =>
    if task_list.owner_id ≠ user_id then
      .error (.authorization accessListMsg)
    else
      let tasks := s.tasks_of_list_paged task_list_id
        pagination.skip pagination.limit filters.status filters.priority
      let tasks :=
        if filters.overdue_only then
          tasks.filter (fun t => t.is_overdue now)
        else tasks
      let tasks :=
        if intOptTruthy filters.assigned_to then
          tasks.filter (fun t => t.assigned_to == filters.assigned_to)
        else tasks
      .ok (tasks.map (taskToResponse now))

end TaskService

/-- Count of tasks with status COMPLETED, the K of spec property P5. -/
def completedCount (tasks : List Task) : Nat :=
  (tasks.filter (fun t => t.status == .completed)).length

/-- Concrete credential codec used by witnesses: hashing prefixes the
password, verification checks that prefix. -/
def hashFn : String → String := fun p => String.append "hash:" p

/-- Concrete password verifier matching hashFn. -/
def verifyFn : String → String → Bool :=
  fun p h => h == String.append "hash:" p

/-- Concrete token signer used by witnesses. -/
def mkTokenFn : Int → String := fun i => String.append "token:" (toString i)

/-- Sample active user, owner of the sample list. -/
def userAlice : User :=
  { id := 1, email := "a@x.com", username := "alice", full_name := none,
    hashed_password := "hash:pw1" }

/-- Sample active user, assignee of the sample task. -/
def userBob : User :=
  { id := 2, email := "b@x.com", username := "bob", full_name := none,
    hashed_password := "hash:pw2" }

/-- Sample inactive user. -/
def userCarol : User :=
  { id := 3, email := "c@x.com", username := "carol", full_name := none,
    hashed_password := "hash:pw3", is_active := false }

/-- Sample user whose username collides with the email of userAlice,
exercising the email-before-username lookup order. -/
def userDave : User :=
  { id := 4, email := "d@x.com", username := "a@x.com", full_name := none,
    hashed_password := "hash:pw4" }

/-- Sample task list owned by userAlice. -/
def groceriesList : TaskList := { id := 1, name := "Groceries", owner_id := 1 }

/-- Sample task in the sample list, assigned to userBob. -/
def milkTask : Task :=
  { id := 1, title := "Milk", task_list_id := 1, assigned_to := some 2 }

/-- Sample store for the ownership and authorization witnesses. -/
def sampleStore : Store :=
  { users := [userAlice, userBob, userCarol],
    task_lists := [groceriesList],
    tasks := [milkTask] }

/-- Store for the auth witnesses. -/
def authStore : Store :=
  { users := [userAlice, userCarol, userDave] }

/-- Three tasks in list 1, exactly one completed. -/
def threeTasks : List Task :=
  [{ id := 1, title := "t1", task_list_id := 1, status := .completed },
   { id := 2, title := "t2", task_list_id := 1 },
   { id := 3, title := "t3", task_list_id := 1 }]

/-- Task list entity holding the three sample tasks. -/
def tl3 : TaskList :=
  { id := 1, name := "Groceries", owner_id := 1, tasks := threeTasks }

/-- Store whose list 1 holds the three sample tasks. -/
def storeC5 : Store :=
  { users := [userAlice], task_lists := [groceriesList], tasks := threeTasks }

/-- Cancelled task with a past due date (due 5, observed at now 10). -/
def overdueTask : Task :=
  { id := 1, title := "late", task_list_id := 1, status := .cancelled,
    due_date := some 5 }

/-- Store for the pagination post-filter witness: list 1 holds a
non-overdue task followed by an overdue one, so a page of limit 1 holds
only the non-overdue task. -/
def storeC9 : Store :=
  { users := [userAlice],
    task_lists := [groceriesList],
    tasks := [{ id := 1, title := "fresh", task_list_id := 1 },
              { id := 2, title := "late", task_list_id := 1,
                due_date := some 0 }] }

/-- Dummy task-list-with-tasks view for instantiating theorem binders. -/
def dummyListView : TaskListWithTasksDTO :=
  { id := 0, name := "", description := none, owner_id := 0,
    created_at := none, updated_at := none, completion_percentage := 0 }

/-- C8: a task's is_overdue is true exactly when its due_date is set, the
current time is strictly after it, and the status is not COMPLETED; in
particular a CANCELLED task with a past due date is overdue, and a task
with no due date is never overdue. -/
theorem C8_overdue_characterization (t : Task) (now : Int) :
    (t.is_overdue now = true ↔
       ∃ d, t.due_date = some d ∧ d < now ∧ t.status ≠ .completed) ∧
    (t.due_date = none → t.is_overdue now = false) ∧
    (∀ d, t.due_date = some d → d < now → t.status = .cancelled →
       t.is_overdue now = true) := by
  refine ⟨?_, ?_, ?_⟩
  · cases h : t.due_date with
    | none => simp [Task.is_overdue, h]
    | some d => simp [Task.is_overdue, h, gt_iff_lt, bne_iff_ne]
  · intro h
    simp [Task.is_overdue, h]
  · intro d hd hlt hc
    simp [Task.is_overdue, hd, gt_iff_lt, hlt, hc, bne_iff_ne]

/-- Witness for C8 at a concrete task: cancelled, due at 5, observed at
10, overdue; and overdue is false without a due date. -/
theorem C8_overdue_characterization_witness :
    overdueTask.is_overdue 10 = true ∧
    Task.is_overdue { overdueTask with due_date := none } 10 = false := by
  constructor
  · exact (C8_overdue_characterization overdueTask 10).2.2 5 rfl (by decide) rfl
  · exact (C8_overdue_characterization
      { overdueTask with due_date := none } 10).2.1 rfl

/-- C5: the completion percentage is 0 for a list with no tasks and is
exactly 100*K/N for N tasks of which K are completed, both for the
entity method calculate_completion_percentage and for the view computed
by TaskListService.get_task_list. -/
theorem C5_completion_percentage (tl : TaskList) (s : Store) (now : Int)
    (task_list_id user_id : Int) (dto : TaskListWithTasksDTO) :
    (tl.tasks.isEmpty = true → tl.calculate_completion_percentage = 0) ∧
    (tl.tasks.isEmpty = false →
       tl.calculate_completion_percentage
         = 100 * (completedCount tl.tasks : ℚ) / (tl.tasks.length : ℚ)) ∧
    (TaskListService.get_task_list s now task_list_id user_id = .ok dto →
       dto.completion_percentage
         = if (s.tasks_of_list task_list_id).isEmpty then 0
           else 100 * (completedCount (s.tasks_of_list task_list_id) : ℚ)
                  / ((s.tasks_of_list task_list_id).length : ℚ)) := by
  refine ⟨?_, ?_, ?_⟩
  · intro h
    simp [TaskList.calculate_completion_percentage, h]
  · intro h
    simp [TaskList.calculate_completion_percentage, h, completedCount]
    ring
  · intro h
    unfold TaskListService.get_task_list at h
    split at h
    · exact absurd h (by simp)
    · split at h
      · exact absurd h (by simp)
      · dsimp only at h
        injection h with h
        rw [← h]
        cases he : (s.tasks_of_list task_list_id).isEmpty with
        | true => simp [he, completedCount]
        | false =>
          simp [he, completedCount]
          ring

/-- Witness for C5: three tasks with one completed give 100/3 both for
the entity method and through get_task_list on a concrete store. -/
theorem C5_completion_percentage_witness :
    tl3.calculate_completion_percentage = 100 / 3 ∧
    (TaskListService.get_task_list storeC5 0 1 1).map
        (fun d => d.completion_percentage) = .ok (100 / 3) := by
  have h1 : completedCount threeTasks = 1 := rfl
  have h2 : threeTasks.length = 3 := rfl
  have h3 : threeTasks.isEmpty = false := rfl
  constructor
  · rw [(C5_completion_percentage tl3 storeC5 0 1 1 dummyListView).2.1 rfl]
    show (100 : ℚ) * (completedCount threeTasks : ℚ) / ((threeTasks.length : ℕ) : ℚ) = 100 / 3
    rw [h1, h2]
    norm_num
  · cases h : TaskListService.get_task_list storeC5 0 1 1 with
    | error e =>
      have hok : (TaskListService.get_task_list storeC5 0 1 1).isOk = true := by
        decide
      rw [h] at hok
      exact absurd hok (by simp [Except.isOk, Except.toBool])
    | ok dto =>
      have hc := (C5_completion_percentage tl3 storeC5 0 1 1 dto).2.2 h
      have hval : dto.completion_percentage = 100 / 3 := by
        rw [hc]
        have he : storeC5.tasks_of_list 1 = threeTasks := rfl
        rw [he, h3, h1, h2]
        norm_num
      simp [Except.map, hval]

/-- C4: registration reports DuplicateEmail when the email is taken and
DuplicateUsername when only the username is taken; the email check runs
first, so a request with both duplicated reports the email conflict.  In
each failure no user is persisted (the store is returned unchanged). -/
theorem C4_register_email_precedence (s : Store) (hash : String → String)
    (now : Int) (d : UserCreateDTO) :
    (∀ u, s.user_by_email d.email = some u →
       AuthService.register_user s hash now d
         = (.error (.emailExists d.email), s)) ∧
    (s.user_by_email d.email = none →
       ∀ v, s.user_by_username d.username = some v →
         AuthService.register_user s hash now d
           = (.error (.usernameExists d.username), s)) ∧
    (∀ u v, s.user_by_email d.email = some u →
       s.user_by_username d.username = some v →
       AuthService.register_user s hash now d
         = (.error (.emailExists d.email), s)) := by
  refine ⟨?_, ?_, ?_⟩
  · intro u hu
    simp [AuthService.register_user, hu]
  · intro he v hv
    simp [AuthService.register_user, he, hv]
  · intro u v hu _
    simp [AuthService.register_user, hu]

/-- Witness for C4 on a concrete store: a duplicate email (with the
username also taken) reports the email conflict, and a fresh email with
a taken username reports the username conflict. -/
theorem C4_register_email_precedence_witness :
    AuthService.register_user authStore hashFn 0
        { email := "a@x.com", username := "alice", password := "longenoughpw" }
      = (.error (.emailExists "a@x.com"), authStore) ∧
    AuthService.register_user authStore hashFn 0
        { email := "new@x.com", username := "alice", password := "longenoughpw" }
      = (.error (.usernameExists "alice"), authStore) := by
  constructor
  · exact (C4_register_email_precedence authStore hashFn 0
      { email := "a@x.com", username := "alice", password := "longenoughpw" }).2.2
      userAlice userAlice rfl rfl
  · exact (C4_register_email_precedence authStore hashFn 0
      { email := "new@x.com", username := "alice", password := "longenoughpw" }).2.1
      rfl userAlice rfl

/-- C3: login resolves the identifier by email first and only on a miss
by username; both the no-user case and the failed-verification case
produce the identical InvalidCredentials error value, and the distinct
AccountInactive error occurs exactly when a user is resolved, the
password verifies, and is_active is false. -/
theorem C3_login_behavior (s : Store) (verify : String → String → Bool)
    (mkToken : Int → String) (m : Int) (login : LoginDTO) :
    (∀ u, s.user_by_email login.email = some u →
       AuthService.resolve_user s login.email = some u) ∧
    (s.user_by_email login.email = none →
       AuthService.resolve_user s login.email
         = s.user_by_username login.email) ∧
    (AuthService.resolve_user s login.email = none →
       AuthService.authenticate_user s verify mkToken m login
         = .error (.authentication "Invalid credentials")) ∧
    (∀ u, AuthService.resolve_user s login.email = some u →
       verify login.password u.hashed_password = false →
       AuthService.authenticate_user s verify mkToken m login
         = .error (.authentication "Invalid credentials")) ∧
    (AuthService.authenticate_user s verify mkToken m login
         = .error (.authentication "User account is inactive")
       ↔ ∃ u, AuthService.resolve_user s login.email = some u
           ∧ verify login.password u.hashed_password = true
           ∧ u.is_active = false) := by
  refine ⟨?_, ?_, ?_, ?_, ?_⟩
  · intro u hu
    simp [AuthService.resolve_user, hu]
  · intro h
    simp [AuthService.resolve_user, h]
  · intro h
    simp [AuthService.authenticate_user, h]
  · intro u hu hv
    simp [AuthService.authenticate_user, hu, hv]
  · constructor
    · intro h
      unfold AuthService.authenticate_user at h
      cases hr : AuthService.resolve_user s login.email with
      | none =>
        rw [hr] at h
        exact absurd h (by simp)
      | some u =>
        rw [hr] at h
        dsimp only at h
        by_cases hv : verify login.password u.hashed_password = true
        · rw [hv] at h
          by_cases ha : u.is_active = true
          · rw [ha] at h
            exact absurd h (by simp)
          · exact ⟨u, rfl, hv, by simpa using ha⟩
        · rw [Bool.not_eq_true] at hv
          rw [hv] at h
          exact absurd h (by simp)
    · rintro ⟨u, hu, hv, ha⟩
      simp [AuthService.authenticate_user, hu, hv, ha]

/-- Witness for C3 on a concrete store: the identifier a@x.com resolves
to the user holding it as email even though another user holds it as
username; an unknown identifier and a wrong password yield the identical
InvalidCredentials error; an inactive user with the correct password
yields the AccountInactive error. -/
theorem C3_login_behavior_witness :
    AuthService.resolve_user authStore "a@x.com" = some userAlice ∧
    AuthService.authenticate_user authStore verifyFn mkTokenFn 30
        { email := "zzz", password := "pw" }
      = .error (.authentication "Invalid credentials") ∧
    AuthService.authenticate_user authStore verifyFn mkTokenFn 30
        { email := "a@x.com", password := "wrong" }
      = .error (.authentication "Invalid credentials") ∧
    AuthService.authenticate_user authStore verifyFn mkTokenFn 30
        { email := "c@x.com", password := "pw3" }
      = .error (.authentication "User account is inactive") := by
  refine ⟨?_, ?_, ?_, ?_⟩
  · exact (C3_login_behavior authStore verifyFn mkTokenFn 30
      { email := "a@x.com", password := "pw" }).1 userAlice rfl
  · exact (C3_login_behavior authStore verifyFn mkTokenFn 30
      { email := "zzz", password := "pw" }).2.2.1 rfl
  · exact (C3_login_behavior authStore verifyFn mkTokenFn 30
      { email := "a@x.com", password := "wrong" }).2.2.2.1 userAlice rfl rfl
  · exact ((C3_login_behavior authStore verifyFn mkTokenFn 30
      { email := "c@x.com", password := "pw3" }).2.2.2.2).mpr
      ⟨userCarol, rfl, rfl, rfl⟩

/-- C1: for a task list owned by A, get, update and delete invoked by any
B distinct from A fail with the authorization error while the same calls
by A succeed; when the list is absent every one of the three operations
fails with TaskListNotFound regardless of the requester, the absence
check preceding the ownership check. -/
theorem C1_task_list_ownership_gate (s : Store) (now : Int)
    (upd : TaskListUpdateDTO) (task_list_id B : Int) :
    (∀ L, s.task_list_by_id task_list_id = some L →
      (B ≠ L.owner_id →
        TaskListService.get_task_list s now task_list_id B
          = .error (.authorization accessListMsg) ∧
        TaskListService.update_task_list s now task_list_id upd B
          = (.error (.authorization accessListMsg), s) ∧
        TaskListService.delete_task_list s task_list_id B
          = (.error (.authorization accessListMsg), s)) ∧
      (TaskListService.get_task_list s now task_list_id L.owner_id).isOk
        = true ∧
      (TaskListService.update_task_list s now task_list_id upd
          L.owner_id).1.isOk = true ∧
      (TaskListService.delete_task_list s task_list_id L.owner_id).1.isOk
        = true) ∧
    (s.task_list_by_id task_list_id = none →
      TaskListService.get_task_list s now task_list_id B
        = .error (.taskListNotFound task_list_id) ∧
      TaskListService.update_task_list s now task_list_id upd B
        = (.error (.taskListNotFound task_list_id), s) ∧
      TaskListService.delete_task_list s task_list_id B
        = (.error (.taskListNotFound task_list_id), s)) := by
  constructor
  · intro L hL
    have hself : ¬ L.owner_id ≠ L.owner_id := fun hc => hc rfl
    refine ⟨fun hB => ?_, ?_, ?_, ?_⟩
    · have hBo : L.owner_id ≠ B := fun hc => hB hc.symm
      refine ⟨?_, ?_, ?_⟩
      · simp [TaskListService.get_task_list, hL, hBo]
      · simp [TaskListService.update_task_list, hL, hBo]
      · simp [TaskListService.delete_task_list, hL, hBo]
    · simp [TaskListService.get_task_list, hL, hself, Except.isOk, Except.toBool]
    · simp [TaskListService.update_task_list, hL, hself, Except.isOk,
        Except.toBool]
    · simp [TaskListService.delete_task_list, hL, hself, Except.isOk,
        Except.toBool]
  · intro hn
    refine ⟨?_, ?_, ?_⟩
    · simp [TaskListService.get_task_list, hn]
    · simp [TaskListService.update_task_list, hn]
    · simp [TaskListService.delete_task_list, hn]

/-- Witness for C1 on a concrete store: user 2 is refused get, update and
delete of list 1 owned by user 1, user 1 succeeds at all three, and the
absent list 99 yields TaskListNotFound. -/
theorem C1_task_list_ownership_gate_witness :
    TaskListService.get_task_list sampleStore 0 1 2
      = .error (.authorization accessListMsg) ∧
    TaskListService.update_task_list sampleStore 0 1 {} 2
      = (.error (.authorization accessListMsg), sampleStore) ∧
    TaskListService.delete_task_list sampleStore 1 2
      = (.error (.authorization accessListMsg), sampleStore) ∧
    (TaskListService.get_task_list sampleStore 0 1 1).isOk = true ∧
    (TaskListService.update_task_list sampleStore 0 1 {} 1).1.isOk = true ∧
    (TaskListService.delete_task_list sampleStore 1 1).1.isOk = true ∧
    TaskListService.get_task_list sampleStore 0 99 2
      = .error (.taskListNotFound 99) := by
  have h := (C1_task_list_ownership_gate sampleStore 0 {} 1 2).1
    groceriesList rfl
  have h99 := (C1_task_list_ownership_gate sampleStore 0 {} 99 2).2 rfl
  have hB := h.1 (by decide)
  exact ⟨hB.1, hB.2.1, hB.2.2, h.2.1, h.2.2.1, h.2.2.2, h99.1⟩

/-- C2: for an existing task, get and update_status succeed exactly for
the owning list's owner or the task's assignee and fail with the
authorization error for everyone else, while update and delete succeed
only for the owner and fail with the authorization error for every other
requester, including the assignee. -/
theorem C2_task_authorization (s : Store)
    (notify : EmailNotificationDTO → Bool) (now : Int) (task_id r : Int)
    (st : TaskStatusUpdateDTO) (upd : TaskUpdateDTO) (T : Task)
    (tl : TaskList) (hT : s.task_by_id task_id = some T)
    (hl : s.task_list_by_id T.task_list_id = some tl) :
    ((TaskService.get_task s now task_id r).isOk = true
        ↔ (r = tl.owner_id ∨ T.assigned_to = some r)) ∧
    (¬(r = tl.owner_id ∨ T.assigned_to = some r) →
      TaskService.get_task s now task_id r
        = .error (.authorization accessTaskMsg)) ∧
    ((TaskService.update_task_status s now task_id st r).1.isOk = true
        ↔ (r = tl.owner_id ∨ T.assigned_to = some r)) ∧
    (¬(r = tl.owner_id ∨ T.assigned_to = some r) →
      TaskService.update_task_status s now task_id st r
        = (.error (.authorization accessTaskMsg), s)) ∧
    (r ≠ tl.owner_id →
      TaskService.update_task s notify now task_id upd r
        = (.error (.authorization accessTaskMsg), s)) ∧
    (upd.assigned_to = none →
      (TaskService.update_task s notify now task_id upd
          tl.owner_id).1.isOk = true) ∧
    (r ≠ tl.owner_id →
      TaskService.delete_task s task_id r
        = (.error (.authorization accessTaskMsg), s)) ∧
    ((TaskService.delete_task s task_id tl.owner_id).1.isOk = true) := by
  have hiff : ∀ u : Int, (tl.owner_id ≠ u ∧ T.assigned_to ≠ some u)
      ↔ ¬(u = tl.owner_id ∨ T.assigned_to = some u) := by
    intro u
    constructor
    · rintro ⟨h1, h2⟩ (h3 | h4)
      · exact h1 h3.symm
      · exact h2 h4
    · intro h
      exact ⟨fun he => h (Or.inl he.symm), fun he => h (Or.inr he)⟩
  have hself : ¬ tl.owner_id ≠ tl.owner_id := fun hc => hc rfl
  refine ⟨?_, ?_, ?_, ?_, ?_, ?_, ?_, ?_⟩
  · constructor
    · intro hok
      by_contra hna
      have hc := (hiff r).mpr hna
      simp [TaskService.get_task, hT, hl, hc, Except.isOk, Except.toBool]
        at hok
    · intro hok
      have hc : ¬(tl.owner_id ≠ r ∧ T.assigned_to ≠ some r) := by
        rw [hiff r]; exact not_not_intro hok
      simp [TaskService.get_task, hT, hl, hc, Except.isOk, Except.toBool]
  · intro hna
    have hc := (hiff r).mpr hna
    simp [TaskService.get_task, hT, hl, hc]
  · constructor
    · intro hok
      by_contra hna
      have hc := (hiff r).mpr hna
      simp [TaskService.update_task_status, hT, hl, hc, Except.isOk,
        Except.toBool] at hok
    · intro hok
      have hc : ¬(tl.owner_id ≠ r ∧ T.assigned_to ≠ some r) := by
        rw [hiff r]; exact not_not_intro hok
      simp [TaskService.update_task_status, hT, hl, hc, Except.isOk,
        Except.toBool]
  · intro hna
    have hc := (hiff r).mpr hna
    simp [TaskService.update_task_status, hT, hl, hc]
  · intro hr
    have hc : tl.owner_id ≠ r := fun he => hr he.symm
    simp [TaskService.update_task, hT, hl, hc]
  · intro hupd
    simp [TaskService.update_task, hT, hl, hself, TaskService.verify_assignee,
      hupd, intOptTruthy, Except.isOk, Except.toBool]
  · intro hr
    have hc : tl.owner_id ≠ r := fun he => hr he.symm
    simp [TaskService.delete_task, hT, hl, hc]
  · simp [TaskService.delete_task, hT, hl, hself, Except.isOk, Except.toBool]

/-- Witness for C2 on a concrete store: task 1 is owned via list 1 by
user 1 and assigned to user 2; user 3 can neither get nor update its
status, user 2 can get and update status but not update or delete, and
user 1 can update and delete. -/
theorem C2_task_authorization_witness :
    TaskService.get_task sampleStore 0 1 3
      = .error (.authorization accessTaskMsg) ∧
    (TaskService.get_task sampleStore 0 1 2).isOk = true ∧
    (TaskService.update_task_status sampleStore 0 1
        { status := .completed } 2).1.isOk = true ∧
    TaskService.update_task sampleStore (fun _ => true) 0 1 {} 2
      = (.error (.authorization accessTaskMsg), sampleStore) ∧
    (TaskService.update_task sampleStore (fun _ => true) 0 1 {} 1).1.isOk
      = true ∧
    TaskService.delete_task sampleStore 1 2
      = (.error (.authorization accessTaskMsg), sampleStore) ∧
    (TaskService.delete_task sampleStore 1 1).1.isOk = true := by
  have h3 := C2_task_authorization sampleStore (fun _ => true) 0 1 3
    { status := .completed } {} milkTask groceriesList rfl rfl
  have h2 := C2_task_authorization sampleStore (fun _ => true) 0 1 2
    { status := .completed } {} milkTask groceriesList rfl rfl
  refine ⟨h3.2.1 (by decide), h2.1.mpr (Or.inr rfl),
    h2.2.2.1.mpr (Or.inr rfl), h2.2.2.2.2.1 (by decide),
    h2.2.2.2.2.2.1 rfl, h2.2.2.2.2.2.2.1 (by decide),
    h2.2.2.2.2.2.2.2⟩

/-- Counterexample to C6 as stated: assigned_to = 0 references the
nonexistent user 0, yet create_task succeeds instead of failing with
UserNotFound, because the validation guard tests Python truthiness and 0
is falsy. -/
theorem C6_assignment_validation_counterexample :
    sampleStore.user_by_id 0 = none ∧
    (TaskService.create_task sampleStore (fun _ => true) 0 1
        { title := "t", task_list_id := 1, assigned_to := some 0 }
        1).1.isOk = true := by
  exact ⟨rfl, rfl⟩

/-- C6 amended: for a non-zero assigned_to value, referencing a missing
user fails with UserNotFound and referencing an inactive user fails with
TaskAssignmentError, on both create and update, and in each failure the
store is returned unchanged (assigned_to = 0 bypasses the validation, as
the counterexample shows). -/
theorem C6_assignment_validation_amended (s : Store)
    (notify : EmailNotificationDTO → Bool) (now : Int)
    (task_list_id task_id uid a : Int) (cd : TaskCreateDTO)
    (ud : TaskUpdateDTO) (L : TaskList) (T : Task) (M : TaskList)
    (hL : s.task_list_by_id task_list_id = some L) (hLo : L.owner_id = uid)
    (hT : s.task_by_id task_id = some T)
    (hM : s.task_list_by_id T.task_list_id = some M) (hMo : M.owner_id = uid)
    (ha : a ≠ 0) :
    (s.user_by_id a = none →
      (cd.assigned_to = some a →
        TaskService.create_task s notify now task_list_id cd uid
          = (.error (.userNotFound a), s)) ∧
      (ud.assigned_to = some a →
        TaskService.update_task s notify now task_id ud uid
          = (.error (.userNotFound a), s))) ∧
    (∀ w, s.user_by_id a = some w → w.is_active = false →
      (cd.assigned_to = some a →
        TaskService.create_task s notify now task_list_id cd uid
          = (.error
               (.taskAssignment "Cannot assign task to inactive user"), s)) ∧
      (ud.assigned_to = some a →
        TaskService.update_task s notify now task_id ud uid
          = (.error
               (.taskAssignment "Cannot assign task to inactive user"), s))) := by
  have hLo' : ¬ L.owner_id ≠ uid := fun hc => hc hLo
  have hMo' : ¬ M.owner_id ≠ uid := fun hc => hc hMo
  constructor
  · intro hnone
    constructor
    · intro hcd
      simp [TaskService.create_task, hL, hLo', TaskService.verify_assignee,
        hcd, intOptTruthy, bne_iff_ne, ha, hnone]
    · intro hud
      simp [TaskService.update_task, hT, hM, hMo',
        TaskService.verify_assignee, hud, intOptTruthy, bne_iff_ne, ha, hnone]
  · intro w hw hwa
    constructor
    · intro hcd
      simp [TaskService.create_task, hL, hLo', TaskService.verify_assignee,
        hcd, intOptTruthy, bne_iff_ne, ha, hw, hwa]
    · intro hud
      simp [TaskService.update_task, hT, hM, hMo',
        TaskService.verify_assignee, hud, intOptTruthy, bne_iff_ne, ha, hw,
        hwa]

/-- Witness for the amended C6 on a concrete store: assigning the
nonexistent user 99 on create fails with UserNotFound, and assigning the
inactive user 3 on update fails with TaskAssignmentError, the store
unchanged in both cases. -/
theorem C6_assignment_validation_amended_witness :
    TaskService.create_task sampleStore (fun _ => true) 0 1
        { title := "t", task_list_id := 1, assigned_to := some 99 } 1
      = (.error (.userNotFound 99), sampleStore) ∧
    TaskService.update_task sampleStore (fun _ => true) 0 1
        { assigned_to := some 3 } 1
      = (.error (.taskAssignment "Cannot assign task to inactive user"),
         sampleStore) := by
  constructor
  · exact ((C6_assignment_validation_amended sampleStore (fun _ => true) 0
      1 1 1 99 { title := "t", task_list_id := 1, assigned_to := some 99 }
      { assigned_to := some 3 } groceriesList milkTask groceriesList
      rfl rfl rfl rfl rfl (by decide)).1 rfl).1 rfl
  · exact ((C6_assignment_validation_amended sampleStore (fun _ => true) 0
      1 1 1 3 { title := "t", task_list_id := 1, assigned_to := some 99 }
      { assigned_to := some 3 } groceriesList milkTask groceriesList
      rfl rfl rfl rfl rfl (by decide)).2 userCarol rfl rfl).2 rfl

/-- C10: assigned_to = 0 bypasses the assignee validation (the guard
tests truthiness) yet is applied by the constructor on create and by the
"is not None" test on update: both operations succeed and the stored
task carries assignee 0, while user 0 does not exist. -/
theorem C10_zero_assignee_bypass :
    sampleStore.user_by_id 0 = none ∧
    (TaskService.create_task sampleStore (fun _ => true) 0 1
        { title := "t", task_list_id := 1, assigned_to := some 0 }
        1).1.isOk = true ∧
    (TaskService.create_task sampleStore (fun _ => true) 0 1
        { title := "t", task_list_id := 1, assigned_to := some 0 }
        1).2.task_by_id 2
      = some { id := 2, title := "t", task_list_id := 1,
               assigned_to := some 0, created_at := some 0 } ∧
    (TaskService.update_task sampleStore (fun _ => true) 0 1
        { assigned_to := some 0 } 1).1.isOk = true ∧
    (TaskService.update_task sampleStore (fun _ => true) 0 1
        { assigned_to := some 0 } 1).2.task_by_id 1
      = some { milkTask with assigned_to := some 0, updated_at := some 0 } := by
  exact ⟨rfl, rfl, rfl, rfl, rfl⟩

/-- C7: the outcome of the notification transport never affects a task
mutation: create_task and update_task return identical results and
stores for any two transports, and whenever they return ok the mutated
task state has already been persisted (the created row appended, the
updated row written back). -/
theorem C7_notification_isolation (s : Store)
    (notify1 notify2 : EmailNotificationDTO → Bool) (now : Int)
    (task_list_id task_id : Int) (cd : TaskCreateDTO) (ud : TaskUpdateDTO)
    (uid : Int) :
    TaskService.create_task s notify1 now task_list_id cd uid
      = TaskService.create_task s notify2 now task_list_id cd uid ∧
    TaskService.update_task s notify1 now task_id ud uid
      = TaskService.update_task s notify2 now task_id ud uid ∧
    (∀ r s1, TaskService.create_task s notify1 now task_list_id cd uid
        = (.ok r, s1) →
      s1.tasks = s.tasks ++
        [{ id := s.fresh_task_id, title := cd.title,
           description := cd.description, priority := cd.priority,
           task_list_id := task_list_id, assigned_to := cd.assigned_to,
           due_date := cd.due_date, created_at := some now }]) ∧
    (∀ T, s.task_by_id task_id = some T → ∀ r s1,
      TaskService.update_task s notify1 now task_id ud uid = (.ok r, s1) →
      s1 = s.replace_task (TaskService.applyTaskUpdate T ud now) ∧
      r = taskToResponse now (TaskService.applyTaskUpdate T ud now)) := by
  refine ⟨rfl, rfl, ?_, ?_⟩
  · intro r s1 h
    unfold TaskService.create_task at h
    split at h
    · simp at h
    · split at h
      · simp at h
      · split at h
        · simp at h
        · unfold Store.insert_task at h
          dsimp only at h
          rw [Prod.mk.injEq] at h
          rw [← h.2]
  · intro T hT r s1 h
    unfold TaskService.update_task at h
    rw [hT] at h
    dsimp only at h
    split at h
    · simp at h
    · split at h
      · simp at h
      · split at h
        · simp at h
        · rw [Prod.mk.injEq] at h
          obtain ⟨h1, h2⟩ := h
          injection h1 with h1
          exact ⟨h2.symm, h1.symm⟩

/-- Witness for C7 on a concrete store: an always-failing transport and
an always-succeeding one produce the same create result, and the created
and updated rows are persisted. -/
theorem C7_notification_isolation_witness :
    TaskService.create_task sampleStore (fun _ => false) 0 1
        { title := "Eggs", task_list_id := 1, assigned_to := some 2 } 1
      = TaskService.create_task sampleStore (fun _ => true) 0 1
        { title := "Eggs", task_list_id := 1, assigned_to := some 2 } 1 ∧
    (TaskService.create_task sampleStore (fun _ => false) 0 1
        { title := "Eggs", task_list_id := 1, assigned_to := some 2 }
        1).2.tasks
      = sampleStore.tasks ++
        [{ id := 2, title := "Eggs", task_list_id := 1,
           assigned_to := some 2, created_at := some 0 }] ∧
    (TaskService.update_task sampleStore (fun _ => false) 0 1
        { title := some "Skim milk" } 1).2
      = sampleStore.replace_task
          { milkTask with title := "Skim milk", updated_at := some 0 } := by
  have h := C7_notification_isolation sampleStore (fun _ => false)
    (fun _ => true) 0 1 1
    { title := "Eggs", task_list_id := 1, assigned_to := some 2 }
    { title := some "Skim milk" } 1
  refine ⟨h.1, ?_, ?_⟩
  · exact (h.2.2.1 _ _ rfl).trans rfl
  · exact ((h.2.2.2 milkTask rfl _ _ rfl).1).trans rfl

/-- C9: list_tasks first takes a page of at most limit rows filtered
only by status and priority, then applies the overdue_only and
assigned_to filters in memory over that page; on a concrete store a page
of limit 1 filtered for overdue tasks comes back empty even though one
overdue task of the list exists beyond the page boundary. -/
theorem C9_list_tasks_page_then_filter (s : Store) (now : Int)
    (task_list_id : Int) (filters : TaskFilterDTO) (pag : PaginationDTO)
    (uid : Int) (L : TaskList)
    (hL : s.task_list_by_id task_list_id = some L) (hLo : L.owner_id = uid) :
    ((s.tasks_of_list_paged task_list_id pag.skip pag.limit
        filters.status filters.priority).length ≤ pag.limit) ∧
    (TaskService.list_tasks s now task_list_id filters pag uid
      = .ok
        (let page := s.tasks_of_list_paged task_list_id pag.skip pag.limit
           filters.status filters.priority
         let page := if filters.overdue_only then
             page.filter (fun t => t.is_overdue now)
           else page
         let page := if intOptTruthy filters.assigned_to then
             page.filter (fun t => t.assigned_to == filters.assigned_to)
           else page
         page.map (taskToResponse now))) ∧
    (TaskService.list_tasks storeC9 10 1 { overdue_only := true }
        { skip := 0, limit := 1 } 1 = .ok []) ∧
    ((storeC9.tasks.filter
        (fun t => t.task_list_id == 1 && t.is_overdue 10)).length = 1) := by
  have hLo' : ¬ L.owner_id ≠ uid := fun hc => hc hLo
  refine ⟨?_, ?_, rfl, rfl⟩
  · unfold Store.tasks_of_list_paged
    dsimp only
    exact List.length_take_le _ _
  · simp [TaskService.list_tasks, hL, hLo']

/-- Witness for C9: the general page-then-filter equation instantiated
on the concrete shortfall store. -/
theorem C9_list_tasks_page_then_filter_witness :
    TaskService.list_tasks storeC9 10 1 { overdue_only := true }
        { skip := 0, limit := 1 } 1 = .ok [] ∧
    (storeC9.tasks_of_list_paged 1 0 1 none none).length ≤ 1 := by
  have h := C9_list_tasks_page_then_filter storeC9 10 1
    { overdue_only := true } { skip := 0, limit := 1 } 1 groceriesList
    rfl rfl
  exact ⟨h.2.2.1, h.1⟩
